import Mathlib

set_option maxRecDepth 8000

/-!
Verification of the squat-dashboard rep-detection core
(`src/python/squat_dashboard.py`, class `SquatDashboard`).

The per-frame state machine works on the two angle values of a frame
(knee angle, torso angle).  Angles are embedded as rationals: the Python
code only ever compares them against integer thresholds, so the ordered
field `ℚ` captures every comparison exactly.  The angle calculator
(`calculate_angle`) is genuine trigonometry and is embedded over `ℝ`
using `Complex.arg` as the mathematical meaning of `atan2`.
-/

/-- The mutable rep-counting state of `SquatDashboard.__init__`
(`rep_count`, `in_squat`, `squat_threshold`, `current_rep_metrics`,
`deepest_knee_angle`, `deepest_torso_angle`, `last_rep_feedback`,
`feedback_timer`, `feedback_duration`). -/
structure SquatDashboard where
  rep_count : Nat
  in_squat : Bool
  squat_threshold : ℚ
  current_rep_metrics : List (ℚ × ℚ)
  deepest_knee_angle : ℚ
  deepest_torso_angle : ℚ
  last_rep_feedback : String
  feedback_timer : Nat
  feedback_duration : Nat
deriving Repr, DecidableEq

namespace SquatDashboard

/-- The initial state set up by `SquatDashboard.__init__`. -/
def init : SquatDashboard :=
  { rep_count := 0
    in_squat := false
    squat_threshold := 140
    current_rep_metrics := []
    deepest_knee_angle := 180
    deepest_torso_angle := 0
    last_rep_feedback := ""
    feedback_timer := 0
    feedback_duration := 180 }

/-- The knee clause of `generate_rep_feedback`: the first branch of its
sequential range tests on `deepest_knee_angle` that fires. -/
def kneeClause (dk : ℚ) : String :=
  if 170 ≤ dk then "Too shallow - go deeper"
  else if 135 < dk ∧ dk < 170 then "Shallow squat - try for more depth"
  else if 110 ≤ dk ∧ dk ≤ 135 then "Perfect depth!"
  else if 90 ≤ dk ∧ dk < 110 then "Good depth"
  else if 70 ≤ dk ∧ dk < 90 then "Parallel depth achieved"
  else "Very deep - be careful"

/-- The torso clause of `generate_rep_feedback`. -/
def torsoClause (dt : ℚ) : String :=
  if 30 ≤ dt ∧ dt ≤ 45 then "Good torso position"
  else if dt < 30 then "Torso too upright"
  else if 45 < dt ∧ dt ≤ 60 then "Slight forward lean"
  else "Too much forward lean"

/-- The string built by `generate_rep_feedback`: the two clauses joined
by `" | "` (Python `" | ".join(feedback_lines)`). -/
def feedbackString (dk dt : ℚ) : String :=
  String.intercalate " | " [kneeClause dk, torsoClause dt]

/-- Method `SquatDashboard.generate_rep_feedback`, as the value it stores into
`last_rep_feedback`, read off the state's deepest angles. -/
def generate_rep_feedback (s : SquatDashboard) : String :=
  feedbackString s.deepest_knee_angle s.deepest_torso_angle

/-- Method `SquatDashboard.update_rep_count(knee_angle, torso_angle)`.
Direct transcription of the Python method: the outer validity guard
`knee_angle > 0`, the entering branch, and the in-squat branch with its
deepest-angle update, metric append and rep-completion test. -/
def update_rep_count (s : SquatDashboard) (knee_angle torso_angle : ℚ) :
    SquatDashboard :=
  if 0 < knee_angle then
    if knee_angle < s.squat_threshold ∧ s.in_squat = false then
      { s with in_squat := true
               deepest_knee_angle := knee_angle
               deepest_torso_angle := torso_angle
               current_rep_metrics := [] }
    else if s.in_squat = true then
      let s1 :=
        if knee_angle < s.deepest_knee_angle then
          { s with deepest_knee_angle := knee_angle
                   deepest_torso_angle := torso_angle }
        else s
      let s2 :=
        { s1 with current_rep_metrics :=
            s1.current_rep_metrics ++ [(knee_angle, torso_angle)] }
      if s.squat_threshold ≤ knee_angle then
        { s2 with in_squat := false
                  rep_count := s2.rep_count + 1
                  last_rep_feedback := generate_rep_feedback s2
                  feedback_timer := s2.feedback_duration }
      else s2
    else s
  else s

/-- Feeding a list of `(knee_angle, torso_angle)` frames to
`update_rep_count`, one call per frame in order. -/
def runUpdates (s : SquatDashboard) (fs : List (ℚ × ℚ)) : SquatDashboard :=
  fs.foldl (fun st p => update_rep_count st p.1 p.2) s

/-- States the core can actually be in: reachable from `init` by some
frame sequence. -/
def Reachable (s : SquatDashboard) : Prop :=
  ∃ fs : List (ℚ × ℚ), runUpdates init fs = s

/-- The structural invariant of the session state: the threshold and the
feedback duration are the constants of `__init__`, and an open rep always
has its deepest knee angle strictly below the threshold. -/
def Inv (s : SquatDashboard) : Prop :=
  s.squat_threshold = 140 ∧ s.feedback_duration = 180 ∧
    (s.in_squat = true → s.deepest_knee_angle < 140)

end SquatDashboard

/-- Does the pattern occur at the head of the character list? -/
def matchesAt : List Char → List Char → Bool
  | [], _ => true
  | _ :: _, [] => false
  | a :: pat, b :: l => a == b && matchesAt pat l

/-- Does the pattern occur anywhere in the character list? -/
def hasSubstr (pat : List Char) : List Char → Bool
  | [] => matchesAt pat []
  | b :: l => matchesAt pat (b :: l) || hasSubstr pat l

/-- Substring test used to state "the feedback contains ...". -/
def strContains (s pat : String) : Bool :=
  hasSubstr pat.toList s.toList

/-- A 2D landmark point: the `.x` / `.y` coordinates the Python code
reads off each pose landmark. -/
@[ext]
structure Pt where
  x : ℝ
  y : ℝ

/-- Function `np.arctan2 y x`: the polar angle of the vector `(x, y)`, embedded as
`Complex.arg`, which agrees with `atan2` everywhere on the reals,
including `atan2 0 0 = 0`. -/
noncomputable def atan2 (y x : ℝ) : ℝ := Complex.arg ⟨x, y⟩

/-- Method `SquatDashboard.calculate_angle(point1, point2, point3)`: difference
of the polar angles of the rays `b→c` and `b→a`, converted to degrees,
absolute value taken, and any result above 180 reflected as `360 −`
result. -/
noncomputable def calculate_angle (p1 p2 p3 : Pt) : ℝ :=
  let radians :=
    atan2 (p3.y - p2.y) (p3.x - p2.x) - atan2 (p1.y - p2.y) (p1.x - p2.x)
  let angle := |radians * 180 / Real.pi|
  if 180 < angle then 360 - angle else angle

namespace SquatDashboard

/-- An invalid frame (`knee_angle ≤ 0`) leaves the state untouched. -/
lemma update_invalid (s : SquatDashboard) (k t : ℚ) (hk : k ≤ 0) :
    update_rep_count s k t = s := by
  unfold update_rep_count
  rw [if_neg (not_lt.mpr hk)]

/-- A valid frame at or above the threshold while standing is a no-op. -/
lemma update_standing_high (s : SquatDashboard) (k t : ℚ)
    (hout : s.in_squat = false) (hge : s.squat_threshold ≤ k) :
    update_rep_count s k t = s := by
  unfold update_rep_count
  by_cases hk : 0 < k
  · rw [if_pos hk, if_neg (fun h => absurd h.1 (not_lt.mpr hge)),
      if_neg (by simp [hout])]
  · rw [if_neg hk]

/-- A valid frame below the threshold while standing opens a rep. -/
lemma update_enter (s : SquatDashboard) (k t : ℚ)
    (hout : s.in_squat = false) (hk : 0 < k) (hlt : k < s.squat_threshold) :
    update_rep_count s k t =
      { s with in_squat := true
               deepest_knee_angle := k
               deepest_torso_angle := t
               current_rep_metrics := [] } := by
  unfold update_rep_count
  rw [if_pos hk, if_pos ⟨hlt, hout⟩]

/-- A valid frame below the threshold while in a squat keeps the rep open,
updates the deepest pair on a strictly smaller knee angle, and appends
the frame to the metrics buffer. -/
lemma update_in_squat_low (s : SquatDashboard) (k t : ℚ)
    (hin : s.in_squat = true) (hk : 0 < k) (hlt : k < s.squat_threshold) :
    update_rep_count s k t =
      { s with
        deepest_knee_angle :=
          if k < s.deepest_knee_angle then k else s.deepest_knee_angle
        deepest_torso_angle :=
          if k < s.deepest_knee_angle then t else s.deepest_torso_angle
        current_rep_metrics := s.current_rep_metrics ++ [(k, t)] } := by
  unfold update_rep_count
  rw [if_pos hk, if_neg (by simp [hin]), if_pos hin,
    if_neg (not_le.mpr hlt)]
  split_ifs with h <;> rfl

/-- A valid frame at or above the threshold while in a squat, with the
deepest knee angle not above the frame's (always the case in reachable
states), closes the rep: counter incremented, feedback generated from the
frozen deepest pair, display timer re-armed. -/
lemma update_close (s : SquatDashboard) (k t : ℚ)
    (hin : s.in_squat = true) (hk : 0 < k)
    (hge : s.squat_threshold ≤ k) (hdeep : s.deepest_knee_angle ≤ k) :
    update_rep_count s k t =
      { s with
        current_rep_metrics := s.current_rep_metrics ++ [(k, t)]
        in_squat := false
        rep_count := s.rep_count + 1
        last_rep_feedback :=
          feedbackString s.deepest_knee_angle s.deepest_torso_angle
        feedback_timer := s.feedback_duration } := by
  unfold update_rep_count
  rw [if_pos hk, if_neg (by simp [hin]), if_pos hin,
    if_neg (not_lt.mpr hdeep), if_pos hge]
  rfl

lemma runUpdates_nil (s : SquatDashboard) : runUpdates s [] = s := rfl

lemma runUpdates_cons (s : SquatDashboard) (p : ℚ × ℚ) (fs : List (ℚ × ℚ)) :
    runUpdates s (p :: fs) = runUpdates (update_rep_count s p.1 p.2) fs := rfl

/-- Every single update preserves the structural invariant. -/
lemma Inv.update (s : SquatDashboard) (k t : ℚ) (h : Inv s) :
    Inv (update_rep_count s k t) := by
  obtain ⟨hthr, hdur, hdeep⟩ := h
  by_cases hk : 0 < k
  · by_cases hin : s.in_squat = true
    · by_cases hlt : k < s.squat_threshold
      · rw [update_in_squat_low s k t hin hk hlt]
        refine ⟨hthr, hdur, fun _ => ?_⟩
        dsimp only
        split_ifs with h'
        · rw [hthr] at hlt; exact hlt
        · exact hdeep hin
      · have hge : s.squat_threshold ≤ k := not_lt.mp hlt
        have hd : s.deepest_knee_angle ≤ k :=
          le_of_lt (lt_of_lt_of_le (hthr ▸ hdeep hin) hge)
        rw [update_close s k t hin hk hge hd]
        exact ⟨hthr, hdur, fun hc => by simp at hc⟩
    · have hout : s.in_squat = false := by
        cases hb : s.in_squat
        · rfl
        · exact absurd hb hin
      by_cases hlt : k < s.squat_threshold
      · rw [update_enter s k t hout hk hlt]
        exact ⟨hthr, hdur, fun _ => hthr ▸ hlt⟩
      · rw [update_standing_high s k t hout (not_lt.mp hlt)]
        exact ⟨hthr, hdur, hdeep⟩
  · rw [update_invalid s k t (not_lt.mp hk)]
    exact ⟨hthr, hdur, hdeep⟩

/-- Running any frame sequence preserves the structural invariant. -/
lemma Inv.run (fs : List (ℚ × ℚ)) (s : SquatDashboard) (h : Inv s) :
    Inv (runUpdates s fs) := by
  induction fs generalizing s with
  | nil => exact h
  | cons p fs ih =>
      rw [runUpdates_cons]
      exact ih _ (Inv.update s p.1 p.2 h)

lemma Inv.init : Inv init :=
  ⟨rfl, rfl, fun h => by simp [SquatDashboard.init] at h⟩

/-- Every reachable state satisfies the structural invariant. -/
lemma Inv.of_reachable (s : SquatDashboard) (h : Reachable s) : Inv s := by
  obtain ⟨fs, rfl⟩ := h
  exact Inv.run fs _ Inv.init

/-- A single update never decreases the rep counter. -/
lemma rep_count_le_update (s : SquatDashboard) (k t : ℚ) :
    s.rep_count ≤ (update_rep_count s k t).rep_count := by
  unfold update_rep_count
  split_ifs <;> simp

/-- Running any frame sequence never decreases the rep counter. -/
lemma rep_count_le_run (fs : List (ℚ × ℚ)) (s : SquatDashboard) :
    s.rep_count ≤ (runUpdates s fs).rep_count := by
  induction fs generalizing s with
  | nil => exact le_refl _
  | cons p fs ih =>
      rw [runUpdates_cons]
      exact le_trans (rep_count_le_update s p.1 p.2) (ih _)

/-- A whole run of frames at or above the threshold, started standing,
changes nothing at all. -/
lemma run_standing_high (fs : List (ℚ × ℚ)) (s : SquatDashboard)
    (hout : s.in_squat = false) (hthr : s.squat_threshold = 140)
    (h : ∀ p ∈ fs, (140 : ℚ) ≤ p.1) :
    runUpdates s fs = s := by
  induction fs with
  | nil => rfl
  | cons p fs ih =>
      rw [runUpdates_cons,
        update_standing_high s p.1 p.2 hout
          (by rw [hthr]; exact h p (List.mem_cons_self p fs))]
      exact ih fun q hq => h q (List.mem_cons_of_mem p hq)

end SquatDashboard

namespace SquatDashboard

/-- C4: an update call carrying a MissingPose frame (`knee_angle == 0`)
leaves `rep_count`, `in_squat`, `deepest_knee_angle` and
`deepest_torso_angle` unchanged — in particular it never completes a rep,
also in the middle of an open rep. -/
theorem missing_pose_frame_is_noop (s : SquatDashboard) (t : ℚ) :
    (update_rep_count s 0 t).rep_count = s.rep_count ∧
    (update_rep_count s 0 t).in_squat = s.in_squat ∧
    (update_rep_count s 0 t).deepest_knee_angle = s.deepest_knee_angle ∧
    (update_rep_count s 0 t).deepest_torso_angle = s.deepest_torso_angle := by
  rw [update_invalid s 0 t (le_refl 0)]
  exact ⟨rfl, rfl, rfl, rfl⟩

/-- C10: the validity guard is `knee_angle > 0`, so every non-positive
knee angle (negative values as well as the sentinel `0`) makes the update
a no-op on `rep_count`, `in_squat` and the deepest fields. -/
theorem nonpositive_knee_is_noop (s : SquatDashboard) (k t : ℚ)
    (hk : k ≤ 0) :
    (update_rep_count s k t).rep_count = s.rep_count ∧
    (update_rep_count s k t).in_squat = s.in_squat ∧
    (update_rep_count s k t).deepest_knee_angle = s.deepest_knee_angle ∧
    (update_rep_count s k t).deepest_torso_angle = s.deepest_torso_angle := by
  rw [update_invalid s k t hk]
  exact ⟨rfl, rfl, rfl, rfl⟩

/-- Witness for C10 at the concrete input `knee_angle = -5`. -/
theorem nonpositive_knee_is_noop_witness :
    (-5 : ℚ) ≤ 0 ∧
    ((update_rep_count init (-5) 35).rep_count = init.rep_count ∧
     (update_rep_count init (-5) 35).in_squat = init.in_squat ∧
     (update_rep_count init (-5) 35).deepest_knee_angle
       = init.deepest_knee_angle ∧
     (update_rep_count init (-5) 35).deepest_torso_angle
       = init.deepest_torso_angle) :=
  ⟨by norm_num, nonpositive_knee_is_noop init (-5) 35 (by norm_num)⟩

/-- C6: `rep_count` is a natural number (hence never negative) and no
call of the update operation, nor any sequence of calls, ever decreases
it. -/
theorem rep_count_monotone (s : SquatDashboard) (k t : ℚ)
    (fs : List (ℚ × ℚ)) :
    0 ≤ s.rep_count ∧
    s.rep_count ≤ (update_rep_count s k t).rep_count ∧
    s.rep_count ≤ (runUpdates s fs).rep_count :=
  ⟨Nat.zero_le _, rep_count_le_update s k t, rep_count_le_run fs s⟩

/-- C5: starting from the initial state, if no frame's knee angle drops
below 140 then `rep_count` stays 0 and `in_squat` stays false after every
call (every such sequence — hence every prefix — ends in this state). -/
theorem no_descent_no_reps (fs : List (ℚ × ℚ))
    (h : ∀ p ∈ fs, (140 : ℚ) ≤ p.1) :
    (runUpdates init fs).rep_count = 0 ∧
    (runUpdates init fs).in_squat = false := by
  rw [run_standing_high fs init rfl rfl h]
  exact ⟨rfl, rfl⟩

/-- Witness for C5 at the concrete frame sequence `[(150, 30), (178, 40)]`. -/
theorem no_descent_no_reps_witness :
    (∀ p ∈ [((150 : ℚ), (30 : ℚ)), (178, 40)], (140 : ℚ) ≤ p.1) ∧
    ((runUpdates init [(150, 30), (178, 40)]).rep_count = 0 ∧
     (runUpdates init [(150, 30), (178, 40)]).in_squat = false) :=
  ⟨by decide, no_descent_no_reps _ (by decide)⟩

/-- Running frames that are all invalid or below the threshold over an
open rep keeps the rep open, and the deepest pair is either unchanged or
one of the valid frames of the run, with its knee angle a lower bound of
the run's valid knee angles. -/
lemma run_low_props (fs : List (ℚ × ℚ)) :
    ∀ s : SquatDashboard, s.in_squat = true → s.squat_threshold = 140 →
    s.deepest_knee_angle < 140 →
    (∀ p ∈ fs, 0 < p.1 → p.1 < 140) →
    (runUpdates s fs).in_squat = true ∧
    (runUpdates s fs).squat_threshold = 140 ∧
    (runUpdates s fs).deepest_knee_angle < 140 ∧
    (((runUpdates s fs).deepest_knee_angle = s.deepest_knee_angle ∧
      (runUpdates s fs).deepest_torso_angle = s.deepest_torso_angle) ∨
      ((runUpdates s fs).deepest_knee_angle,
       (runUpdates s fs).deepest_torso_angle)
        ∈ fs.filter fun q => decide (0 < q.1)) ∧
    (runUpdates s fs).deepest_knee_angle ≤ s.deepest_knee_angle ∧
    ∀ p ∈ fs.filter (fun q => decide (0 < q.1)),
      (runUpdates s fs).deepest_knee_angle ≤ p.1 := by
  induction fs with
  | nil =>
      intro s hin hthr hdeep _
      refine ⟨hin, hthr, hdeep, Or.inl ⟨rfl, rfl⟩, le_refl _, ?_⟩
      intro q hq
      simp at hq
  | cons p fs ih =>
      intro s hin hthr hdeep h
      by_cases hval : 0 < p.1
      · have hlt : p.1 < 140 := h p (List.mem_cons_self p fs) hval
        have hstep :=
          update_in_squat_low s p.1 p.2 hin hval (by rw [hthr]; exact hlt)
        have hfil : (p :: fs).filter (fun q => decide (0 < q.1))
            = p :: fs.filter (fun q => decide (0 < q.1)) :=
          List.filter_cons_of_pos (by simpa using hval)
        rw [runUpdates_cons, hstep, hfil]
        by_cases hc : p.1 < s.deepest_knee_angle
        · simp only [if_pos hc]
          obtain ⟨h1, h2, h3, h4, h5, h6⟩ :=
            ih { s with
                 current_rep_metrics := s.current_rep_metrics ++ [(p.1, p.2)]
                 deepest_knee_angle := p.1
                 deepest_torso_angle := p.2 }
              hin hthr hlt (fun q hq => h q (List.mem_cons_of_mem p hq))
          refine ⟨h1, h2, h3, ?_, ?_, ?_⟩
          · rcases h4 with ⟨hk4, ht4⟩ | hm
            · refine Or.inr ?_
              rw [hk4, ht4]
              exact List.mem_cons_self _ _
            · exact Or.inr (List.mem_cons_of_mem _ hm)
          · exact le_trans h5 (le_of_lt hc)
          · intro q hq
            rcases List.mem_cons.mp hq with rfl | hq'
            · exact h5
            · exact h6 q hq'
        · simp only [if_neg hc]
          obtain ⟨h1, h2, h3, h4, h5, h6⟩ :=
            ih { s with
                 current_rep_metrics := s.current_rep_metrics ++ [(p.1, p.2)] }
              hin hthr hdeep (fun q hq => h q (List.mem_cons_of_mem p hq))
          refine ⟨h1, h2, h3, ?_, ?_, ?_⟩
          · rcases h4 with ⟨hk4, ht4⟩ | hm
            · exact Or.inl ⟨hk4, ht4⟩
            · exact Or.inr (List.mem_cons_of_mem _ hm)
          · exact h5
          · intro q hq
            rcases List.mem_cons.mp hq with rfl | hq'
            · exact le_trans h5 (not_lt.mp hc)
            · exact h6 q hq'
      · rw [runUpdates_cons, update_invalid s p.1 p.2 (not_lt.mp hval),
          List.filter_cons_of_neg (by simpa using hval)]
        exact ih s hin hthr hdeep fun q hq => h q (List.mem_cons_of_mem p hq)

/-- C3: open a rep from a reachable standing state with a valid
sub-threshold frame `(k₀, t₀)` and feed any further frames whose valid
knee angles stay below 140.  The rep stays open, the recorded deepest
pair is one of the valid frames processed since the rep opened (opening
frame included), and its knee angle is the minimum of all those valid
knee angles — the torso value is the one of that same minimal-knee
frame, not an independently minimised torso. -/
theorem deepest_tracks_min (s₀ : SquatDashboard) (k₀ t₀ : ℚ)
    (fs : List (ℚ × ℚ)) (hreach : Reachable s₀)
    (hout : s₀.in_squat = false) (hk₀ : 0 < k₀) (hk₀lt : k₀ < 140)
    (hfs : ∀ p ∈ fs, 0 < p.1 → p.1 < 140) :
    (runUpdates (update_rep_count s₀ k₀ t₀) fs).in_squat = true ∧
    ((runUpdates (update_rep_count s₀ k₀ t₀) fs).deepest_knee_angle,
     (runUpdates (update_rep_count s₀ k₀ t₀) fs).deepest_torso_angle)
      ∈ (k₀, t₀) :: fs.filter (fun q => decide (0 < q.1)) ∧
    ∀ p ∈ (k₀, t₀) :: fs.filter (fun q => decide (0 < q.1)),
      (runUpdates (update_rep_count s₀ k₀ t₀) fs).deepest_knee_angle
        ≤ p.1 := by
  obtain ⟨hthr, hdur, _⟩ := Inv.of_reachable s₀ hreach
  rw [update_enter s₀ k₀ t₀ hout hk₀ (by rw [hthr]; exact hk₀lt)]
  obtain ⟨h1, _, _, h4, h5, h6⟩ :=
    run_low_props fs
      { s₀ with
        in_squat := true
        deepest_knee_angle := k₀
        deepest_torso_angle := t₀
        current_rep_metrics := [] }
      rfl hthr hk₀lt hfs
  refine ⟨h1, ?_, ?_⟩
  · rcases h4 with ⟨hk4, ht4⟩ | hm
    · rw [hk4, ht4]
      exact List.mem_cons_self _ _
    · exact List.mem_cons_of_mem _ hm
  · intro q hq
    rcases List.mem_cons.mp hq with rfl | hq'
    · exact h5
    · exact h6 q hq'

/-- Witness for C3: open at knee 120, then frames with knee 110 (valid),
0 (missing pose) and 115 (valid). -/
theorem deepest_tracks_min_witness :
    Reachable init ∧ init.in_squat = false ∧ (0 : ℚ) < 120 ∧
    (120 : ℚ) < 140 ∧
    (∀ p ∈ [((110 : ℚ), (20 : ℚ)), (0, 99), (115, 33)],
      0 < p.1 → p.1 < 140) ∧
    ((runUpdates (update_rep_count init 120 50)
        [(110, 20), (0, 99), (115, 33)]).in_squat = true ∧
     ((runUpdates (update_rep_count init 120 50)
         [(110, 20), (0, 99), (115, 33)]).deepest_knee_angle,
      (runUpdates (update_rep_count init 120 50)
         [(110, 20), (0, 99), (115, 33)]).deepest_torso_angle)
       ∈ ((120 : ℚ), (50 : ℚ)) ::
          [((110 : ℚ), (20 : ℚ)), (0, 99), (115, 33)].filter
            (fun q => decide (0 < q.1)) ∧
     ∀ p ∈ ((120 : ℚ), (50 : ℚ)) ::
          [((110 : ℚ), (20 : ℚ)), (0, 99), (115, 33)].filter
            (fun q => decide (0 < q.1)),
       (runUpdates (update_rep_count init 120 50)
          [(110, 20), (0, 99), (115, 33)]).deepest_knee_angle ≤ p.1) :=
  ⟨⟨[], rfl⟩, rfl, by norm_num, by norm_num, by decide,
   deepest_tracks_min init 120 50 [(110, 20), (0, 99), (115, 33)]
     ⟨[], rfl⟩ rfl (by norm_num) (by norm_num) (by decide)⟩

/-- With a deepest knee angle below 140 the first feedback branch
("Too shallow - go deeper", requiring ≥ 170) can never fire. -/
lemma kneeClause_ne_too_shallow (dk : ℚ) (h : dk < 140) :
    kneeClause dk ≠ "Too shallow - go deeper" := by
  unfold kneeClause
  rw [if_neg (not_le.mpr (lt_trans h (by norm_num)))]
  split_ifs <;> decide

/-- Counterexample to C7: entering a squat at knee angle 138 (below the
140 threshold but inside the 135–170 band) and standing back up produces
the "Shallow squat - try for more depth" feedback, so that branch IS
reachable through the state machine. -/
theorem shallow_branch_reachable :
    (runUpdates init [(138, 35), (180, 35)]).rep_count = 1 ∧
    strContains (runUpdates init [(138, 35), (180, 35)]).last_rep_feedback
      "Shallow squat - try for more depth" = true := by decide

/-- C7 (amended): whenever a reachable state has an open rep, its deepest
knee angle is strictly below the 140 threshold, so the
"Too shallow - go deeper" knee clause (which needs ≥ 170) is unreachable;
the "Shallow squat" clause remains reachable for deepest angles in
(135, 140). -/
theorem open_rep_deepest_below_threshold (s : SquatDashboard)
    (hreach : Reachable s) (hin : s.in_squat = true) :
    s.deepest_knee_angle < 140 ∧
    kneeClause s.deepest_knee_angle ≠ "Too shallow - go deeper" := by
  have hdeep := (Inv.of_reachable s hreach).2.2 hin
  exact ⟨hdeep, kneeClause_ne_too_shallow _ hdeep⟩

/-- Witness for C7 (amended) at the open rep reached by one knee-100
frame. -/
theorem open_rep_deepest_below_threshold_witness :
    Reachable (update_rep_count init 100 35) ∧
    (update_rep_count init 100 35).in_squat = true ∧
    ((update_rep_count init 100 35).deepest_knee_angle < 140 ∧
     kneeClause (update_rep_count init 100 35).deepest_knee_angle
       ≠ "Too shallow - go deeper") :=
  ⟨⟨[(100, 35)], rfl⟩, by decide,
   open_rep_deepest_below_threshold _ ⟨[(100, 35)], rfl⟩ (by decide)⟩

/-- Counterexample to C1: on the sequence [180, 100, 100, 100, 180] with
torso 35, the rep is counted and the deepest knee angle is 100, but 100
lies in the [90, 110) band, so the feedback is "Good depth", and
"Perfect depth!" (the [110, 135] band) does not occur in it. -/
theorem perfect_depth_not_in_feedback :
    (runUpdates init
      [(180, 35), (100, 35), (100, 35), (100, 35), (180, 35)]).rep_count
      = 1 ∧
    (runUpdates init
      [(180, 35), (100, 35), (100, 35), (100, 35), (180, 35)]).deepest_knee_angle
      = 100 ∧
    strContains
      (runUpdates init
        [(180, 35), (100, 35), (100, 35), (100, 35), (180, 35)]).last_rep_feedback
      "Perfect depth!" = false := by decide

/-- C1 (amended): the knee-angle sequence [180, 100, 100, 100, 180] with
any constant torso angle in the good band [30, 45] (e.g. 35) yields
`rep_count` exactly 1, the feedback generated from
`deepest_knee_angle == 100`, and `last_feedback` containing both
"Good depth" and "Good torso position". -/
theorem single_rep_sequence_feedback (t : ℚ) (ht0 : 0 < t)
    (ht1 : 30 ≤ t) (ht2 : t ≤ 45) :
    (runUpdates init [(180, t), (100, t), (100, t), (100, t), (180, t)]).rep_count
      = 1 ∧
    (runUpdates init [(180, t), (100, t), (100, t), (100, t), (180, t)]).deepest_knee_angle
      = 100 ∧
    strContains
      (runUpdates init [(180, t), (100, t), (100, t), (100, t), (180, t)]).last_rep_feedback
      "Good depth" = true ∧
    strContains
      (runUpdates init [(180, t), (100, t), (100, t), (100, t), (180, t)]).last_rep_feedback
      "Good torso position" = true := by
  have e0 : update_rep_count init 180 t = init :=
    update_standing_high init 180 t rfl (by decide)
  have e1 : update_rep_count init 100 t =
      { init with in_squat := true
                  deepest_knee_angle := 100
                  deepest_torso_angle := t
                  current_rep_metrics := [] } :=
    update_enter init 100 t rfl (by decide) (by decide)
  have e2 : update_rep_count
      { init with in_squat := true
                  deepest_knee_angle := 100
                  deepest_torso_angle := t
                  current_rep_metrics := [] } 100 t =
      { init with in_squat := true
                  deepest_knee_angle := 100
                  deepest_torso_angle := t
                  current_rep_metrics := [(100, t)] } := by
    rw [update_in_squat_low _ 100 t rfl (by norm_num) (by norm_num [init])]
    norm_num
  have e3 : update_rep_count
      { init with in_squat := true
                  deepest_knee_angle := 100
                  deepest_torso_angle := t
                  current_rep_metrics := [(100, t)] } 100 t =
      { init with in_squat := true
                  deepest_knee_angle := 100
                  deepest_torso_angle := t
                  current_rep_metrics := [(100, t), (100, t)] } := by
    rw [update_in_squat_low _ 100 t rfl (by norm_num) (by norm_num [init])]
    norm_num
  have e4 : update_rep_count
      { init with in_squat := true
                  deepest_knee_angle := 100
                  deepest_torso_angle := t
                  current_rep_metrics := [(100, t), (100, t)] } 180 t =
      { rep_count := 1
        in_squat := false
        squat_threshold := 140
        current_rep_metrics := [(100, t), (100, t), (180, t)]
        deepest_knee_angle := 100
        deepest_torso_angle := t
        last_rep_feedback := feedbackString 100 t
        feedback_timer := 180
        feedback_duration := 180 } := by
    rw [update_close _ 180 t rfl (by norm_num) (by norm_num [init])
      (by norm_num [init])]
    norm_num [init]
  have hrun : runUpdates init [(180, t), (100, t), (100, t), (100, t), (180, t)]
      = { rep_count := 1
          in_squat := false
          squat_threshold := 140
          current_rep_metrics := [(100, t), (100, t), (180, t)]
          deepest_knee_angle := 100
          deepest_torso_angle := t
          last_rep_feedback := feedbackString 100 t
          feedback_timer := 180
          feedback_duration := 180 } := by
    simp only [runUpdates_cons, runUpdates_nil]
    rw [e0, e1, e2, e3, e4]
  have hfb : feedbackString 100 t = "Good depth | Good torso position" := by
    have hk : kneeClause 100 = "Good depth" := by decide
    have ht : torsoClause t = "Good torso position" := by
      unfold torsoClause
      rw [if_pos ⟨ht1, ht2⟩]
    unfold feedbackString
    rw [hk, ht]
    rfl
  rw [hrun]
  refine ⟨rfl, rfl, ?_, ?_⟩
  · show strContains (feedbackString 100 t) "Good depth" = true
    rw [hfb]
    decide
  · show strContains (feedbackString 100 t) "Good torso position" = true
    rw [hfb]
    decide

/-- Witness for C1 (amended) at torso angle 35. -/
theorem single_rep_sequence_feedback_witness :
    (0 : ℚ) < 35 ∧ (30 : ℚ) ≤ 35 ∧ (35 : ℚ) ≤ 45 ∧
    ((runUpdates init
        [(180, 35), (100, 35), (100, 35), (100, 35), (180, 35)]).rep_count
        = 1 ∧
     (runUpdates init
        [(180, 35), (100, 35), (100, 35), (100, 35), (180, 35)]).deepest_knee_angle
        = 100 ∧
     strContains
       (runUpdates init
         [(180, 35), (100, 35), (100, 35), (100, 35), (180, 35)]).last_rep_feedback
       "Good depth" = true ∧
     strContains
       (runUpdates init
         [(180, 35), (100, 35), (100, 35), (100, 35), (180, 35)]).last_rep_feedback
       "Good torso position" = true) :=
  ⟨by norm_num, by norm_num, by norm_num,
   single_rep_sequence_feedback 35 (by norm_num) (by norm_num)
     (by norm_num)⟩

/-- C2: from any reachable state with an open rep, a valid frame whose
knee angle is at least 140 closes the rep: `in_squat` becomes false,
`rep_count` grows by exactly 1, `last_rep_feedback` is the feedback
string computed from the frozen deepest pair, and the display timer is
reset to 180. -/
theorem rep_completion (s : SquatDashboard) (k t : ℚ)
    (hreach : Reachable s) (hin : s.in_squat = true)
    (hk : 0 < k) (hge : (140 : ℚ) ≤ k) :
    (update_rep_count s k t).in_squat = false ∧
    (update_rep_count s k t).rep_count = s.rep_count + 1 ∧
    (update_rep_count s k t).last_rep_feedback
      = feedbackString s.deepest_knee_angle s.deepest_torso_angle ∧
    (update_rep_count s k t).feedback_timer = 180 := by
  obtain ⟨hthr, hdur, hdeep⟩ := Inv.of_reachable s hreach
  have hge' : s.squat_threshold ≤ k := hthr ▸ hge
  have hd : s.deepest_knee_angle ≤ k :=
    le_of_lt (lt_of_lt_of_le (hdeep hin) hge)
  rw [update_close s k t hin hk hge' hd]
  exact ⟨rfl, rfl, rfl, hdur⟩

/-- Witness for C2: open a rep with knee 100, close it with knee 180. -/
theorem rep_completion_witness :
    Reachable (update_rep_count init 100 35) ∧
    (update_rep_count init 100 35).in_squat = true ∧
    (0 : ℚ) < 180 ∧ (140 : ℚ) ≤ 180 ∧
    ((update_rep_count (update_rep_count init 100 35) 180 35).in_squat
        = false ∧
     (update_rep_count (update_rep_count init 100 35) 180 35).rep_count
        = (update_rep_count init 100 35).rep_count + 1 ∧
     (update_rep_count (update_rep_count init 100 35) 180 35).last_rep_feedback
        = feedbackString (update_rep_count init 100 35).deepest_knee_angle
            (update_rep_count init 100 35).deepest_torso_angle ∧
     (update_rep_count (update_rep_count init 100 35) 180 35).feedback_timer
        = 180) :=
  ⟨⟨[(100, 35)], rfl⟩, by decide, by norm_num, by norm_num,
   rep_completion _ 180 35 ⟨[(100, 35)], rfl⟩ (by decide)
     (by norm_num) (by norm_num)⟩

end SquatDashboard

/-- The value of `atan2` (as `Complex.arg`) is always strictly above `-π`. -/
lemma neg_pi_lt_atan2 (y x : ℝ) : -Real.pi < atan2 y x :=
  Complex.neg_pi_lt_arg _

/-- The value of `atan2` (as `Complex.arg`) is always at most `π`. -/
lemma atan2_le_pi (y x : ℝ) : atan2 y x ≤ Real.pi :=
  Complex.arg_le_pi _

/-- C8: for non-degenerate points the angle calculator is invariant under
swapping its outer arguments. -/
theorem angle_swap_symmetric (a b c : Pt) (h1 : a ≠ b) (h2 : c ≠ b) :
    calculate_angle a b c = calculate_angle c b a := by
  simp only [calculate_angle]
  have h : (atan2 (a.y - b.y) (a.x - b.x) - atan2 (c.y - b.y) (c.x - b.x))
        * 180 / Real.pi
      = -((atan2 (c.y - b.y) (c.x - b.x) - atan2 (a.y - b.y) (a.x - b.x))
        * 180 / Real.pi) := by
    ring
  rw [h, abs_neg]

/-- Witness for C8 at the points (1,0), (0,0), (0,1). -/
theorem angle_swap_symmetric_witness :
    (⟨1, 0⟩ : Pt) ≠ ⟨0, 0⟩ ∧ (⟨0, 1⟩ : Pt) ≠ ⟨0, 0⟩ ∧
    calculate_angle ⟨1, 0⟩ ⟨0, 0⟩ ⟨0, 1⟩
      = calculate_angle ⟨0, 1⟩ ⟨0, 0⟩ ⟨1, 0⟩ :=
  ⟨by simp [Pt.ext_iff], by simp [Pt.ext_iff],
   angle_swap_symmetric _ _ _ (by simp [Pt.ext_iff]) (by simp [Pt.ext_iff])⟩

/-- C9: for non-degenerate points the angle calculator's output lies in
[0, 180]: the absolute degree-difference of the two polar angles is below
360, and the reflection `360 − angle` maps everything above 180 back into
the range. -/
theorem angle_in_unit_range (a b c : Pt) (h1 : a ≠ b) (h2 : c ≠ b) :
    0 ≤ calculate_angle a b c ∧ calculate_angle a b c ≤ 180 := by
  simp only [calculate_angle]
  have hpi := Real.pi_pos
  have hA1 := neg_pi_lt_atan2 (a.y - b.y) (a.x - b.x)
  have hA2 := atan2_le_pi (a.y - b.y) (a.x - b.x)
  have hC1 := neg_pi_lt_atan2 (c.y - b.y) (c.x - b.x)
  have hC2 := atan2_le_pi (c.y - b.y) (c.x - b.x)
  set A := atan2 (a.y - b.y) (a.x - b.x)
  set C := atan2 (c.y - b.y) (c.x - b.x)
  have habs : |(C - A) * 180 / Real.pi| < 360 := by
    rw [abs_div, abs_mul, abs_of_pos hpi]
    rw [show |(180 : ℝ)| = 180 by norm_num, div_lt_iff hpi]
    have hCA : |C - A| < 2 * Real.pi :=
      abs_lt.mpr ⟨by linarith, by linarith⟩
    linarith
  constructor
  · split_ifs with h
    · linarith
    · exact abs_nonneg _
  · split_ifs with h
    · linarith
    · exact not_lt.mp h

/-- Witness for C9 at the points (1,0), (0,0), (0,1). -/
theorem angle_in_unit_range_witness :
    (⟨1, 0⟩ : Pt) ≠ ⟨0, 0⟩ ∧ (⟨0, 1⟩ : Pt) ≠ ⟨0, 0⟩ ∧
    (0 ≤ calculate_angle ⟨1, 0⟩ ⟨0, 0⟩ ⟨0, 1⟩ ∧
     calculate_angle ⟨1, 0⟩ ⟨0, 0⟩ ⟨0, 1⟩ ≤ 180) :=
  ⟨by simp [Pt.ext_iff], by simp [Pt.ext_iff],
   angle_in_unit_range _ _ _ (by simp [Pt.ext_iff]) (by simp [Pt.ext_iff])⟩
